import Mathlib

set_option maxRecDepth 16384

/-!
Verification of the shortest-plates enumeration service (`app.py`).

The development shallowly embeds the program's pure logic and its worker
loop.  External effects are made explicit parameters:

* the HTTP fetch (`requests.get`) becomes a function
  `String → Except String String` giving the body text or the exception
  message of a failed request;
* the JSONL data file becomes a `List StoredLine`, one entry per physical
  line, classified by the outcome `json.loads` has on that line
  (a well-formed record, a malformed line, or a blank line);
* the wall clock becomes functions `Nat → String` giving the
  `datetime.now().isoformat(timespec="seconds")` string observed at each
  loop iteration (one for the clock read inside `save_result`, one for the
  snapshot update);
* `stop_event.is_set()` at loop iteration `idx` becomes `stopAt idx`, and
  success of the `save_result` file append at iteration `idx` becomes
  `saveOk idx` (when it is false, the append raises and the thread dies).
-/

namespace Plates

/-- Boolean test that `pat` is a prefix of the second list
(used to embed Python `str.startswith` and `in` on strings). -/
def listPrefixOf : List Char → List Char → Bool
  | [], _ => true
  | _ :: _, [] => false
  | a :: as, b :: bs => a == b && listPrefixOf as bs

/-- Boolean test that `pat` occurs as a contiguous sublist
(embeds Python `pat in s` for strings). -/
def hasSubList (pat : List Char) : List Char → Bool
  | [] => pat.isEmpty
  | c :: cs => listPrefixOf pat (c :: cs) || hasSubList pat cs

/-- Python `pat in s` on strings. -/
def containsSubstr (s pat : String) : Bool :=
  hasSubList pat.toList s.toList

/-- Python `s.startswith(pat)`. -/
def strStartsWith (s pat : String) : Bool :=
  listPrefixOf pat.toList s.toList

/-- Python `s.lower()` (the source only ever lowercases ASCII text). -/
def strLower (s : String) : String :=
  String.mk (s.toList.map Char.toLower)

/-- Python `s[:n]` for a nonnegative `n`. -/
def strTake (s : String) (n : Nat) : String :=
  String.mk (s.toList.take n)

/-- app.py lines 68-73, `generate_combinations`: all two-letter strings
over the uppercase alphabet, inner letter fastest ("AA", "AB", ..., "ZZ").
The commented-out `doubles` and `digits` parts of the source do not
contribute to the returned list. -/
def letters : List Char := "ABCDEFGHIJKLMNOPQRSTUVWXYZ".toList

def generate_combinations : List String :=
  letters.flatMap (fun a => letters.map (fun b => String.mk [a, b]))

/-- Strict lexicographic comparison of character lists (character order is
the usual codepoint order). -/
def lexLt : List Char → List Char → Bool
  | [], [] => false
  | [], _ :: _ => true
  | _ :: _, [] => false
  | a :: as, b :: bs => a < b || (a == b && lexLt as bs)

/-- Strict lexicographic comparison of codes by (first letter, second
letter, ...): the order named by the spec for the generator's output. -/
def codeLt (a b : String) : Bool := lexLt a.toList b.toList

/-- Boolean check that adjacent elements are strictly `codeLt`-increasing. -/
def lexSorted : List String → Bool
  | [] => true
  | [_] => true
  | a :: b :: rest => codeLt a b && lexSorted (b :: rest)

/-- app.py lines 75-84, `check_plate`: the external fetch result is either
the response text (`r.text or ""`, which on a string is the string itself,
with `""` for a falsy text) or the caught exception, turned into the
sentinel string `"__ERROR__ " + str(e)`.  No exception escapes. -/
def check_plate (fetched : Except String String) : String :=
  match fetched with
  | Except.ok t => if t == "" then "" else t
  | Except.error e => "__ERROR__ " ++ e

/-- app.py lines 86-100, `parse_status`: ordered, first-match-wins
classification of the raw text into `(status, note)`. -/
def parse_status (response_text : String) : String × String :=
  if strStartsWith response_text "__ERROR__" then
    ("error", response_text)
  else if containsSubstr response_text "You have reached the maximum plate preview attempts" then
    ("blocked", "rate-limited")
  else if containsSubstr response_text "Plate is issued" then
    ("issued", "")
  else if containsSubstr (strLower response_text) "available" then
    ("available", "")
  else
    ("unknown", strTake response_text 200)

/-- One durable record of the store: the JSON object written by
`save_result` (app.py lines 39-44). -/
structure Observation where
  plate : String
  status : String
  note : String
  checked_at : String
deriving DecidableEq

/-- One physical line of the JSONL data file, classified by what
`load_results` finds when reading it: a line that `json.loads` decodes to
a record, a line on which `json.loads` raises `JSONDecodeError` (e.g. a
partially written line), or a line that strips to empty. -/
inductive StoredLine where
  | record (o : Observation)
  | malformed (raw : String)
  | blank
deriving DecidableEq

/-- app.py lines 37-48, `save_result`: append exactly one full line holding
the record to the data file.  The `checked_at` field of `o` is the
`datetime.now()` string taken at append time. -/
def save_result (file : List StoredLine) (o : Observation) : List StoredLine :=
  file ++ [StoredLine.record o]

/-- What one line contributes to `rows` in `load_results`: a decoded
record, or nothing (blank lines are skipped by the `if not line` guard,
undecodable lines by the `except json.JSONDecodeError` handler). -/
def decodeLine : StoredLine → Option Observation
  | StoredLine.record o => some o
  | StoredLine.malformed _ => none
  | StoredLine.blank => none

/-- Python `rows[:limit]` for an arbitrary integer `limit` (a negative
`limit` slices all but the last `|limit|` elements). -/
def pyTake (rows : List Observation) (limit : Int) : List Observation :=
  if 0 ≤ limit then rows.take limit.toNat
  else rows.take (rows.length - limit.natAbs)

/-- app.py lines 50-65, `load_results`: `none` for the file argument means
`os.path.exists(DATA_FILE)` is false.  Rows are the decodable lines in
file order, reversed (newest first); then `rows[:limit] if limit else
rows`, so both a `None` limit and a `0` limit (falsy) return all rows. -/
def load_results (file : Option (List StoredLine)) (limit : Option Int) :
    List Observation :=
  match file with
  | none => []
  | some lines =>
    let rows := lines.filterMap decodeLine
    let rows := rows.reverse
    match limit with
    | none => rows
    | some l => if l = 0 then rows else pyTake rows l

/-- The worker-visible `state` dict (app.py lines 28-34). -/
structure WorkerState where
  running : Bool
  last_plate : Option String
  last_status : Option String
  last_checked_at : Option String
  queue_remaining : Option Nat
deriving DecidableEq

/-- The initial `state` dict value (app.py lines 28-34). -/
def initialState : WorkerState :=
  { running := false, last_plate := none, last_status := none,
    last_checked_at := none, queue_remaining := none }

/-- Result of one run of `runner_loop`: the final snapshot, the final data
file, and whether the thread reached the trailing
`state["running"] = False` (app.py lines 131-132).  `completed = false`
means `save_result` raised and the uncaught exception killed the thread
before any further statement ran — nothing in the loop catches it and
there is no `finally`. -/
structure RunOutcome where
  st : WorkerState
  file : List StoredLine
  completed : Bool
deriving DecidableEq

/-- app.py lines 110-132, the `for idx, plate in enumerate(combos, 1)`
loop of `runner_loop` together with the trailing reset of `running`.
`idx` is the 1-based enumerate counter; `stopAt idx` is the value of
`stop_event.is_set()` observed at the top of iteration `idx`; `saveOk idx`
tells whether the `save_result` append succeeds at iteration `idx`.
The URL is `f"{BASE_URL_L}{plate}{BASE_URL_R}"` (line 114). The snapshot
update (lines 119-123) happens only after a successful save; on a failed
save the state and file are left exactly as they were and the loop ends
abnormally.  `time.sleep` has no effect on the modelled state. -/
def runnerAux (urlL urlR : String) (fetch : String → Except String String)
    (stopAt saveOk : Nat → Bool) (nowS nowU : Nat → String) (total : Nat) :
    List String → Nat → WorkerState → List StoredLine → RunOutcome
  | [], _idx, st, file => ⟨{ st with running := false }, file, true⟩
  | plate :: rest, idx, st, file =>
    if stopAt idx then ⟨{ st with running := false }, file, true⟩
    else
      let raw := check_plate (fetch (urlL ++ plate ++ urlR))
      let sn := parse_status raw
      if saveOk idx then
        runnerAux urlL urlR fetch stopAt saveOk nowS nowU total rest (idx + 1)
          { st with last_plate := some plate, last_status := some sn.1,
                    last_checked_at := some (nowU idx),
                    queue_remaining := some (total - idx) }
          (save_result file ⟨plate, sn.1, sn.2, nowS idx⟩)
      else ⟨st, file, false⟩

/-- app.py lines 103-132, `runner_loop`: generate the combinations, mark
the snapshot running with the full queue, then run the loop. -/
def runner_loop (urlL urlR : String) (fetch : String → Except String String)
    (stopAt saveOk : Nat → Bool) (nowS nowU : Nat → String)
    (st0 : WorkerState) (file0 : List StoredLine) : RunOutcome :=
  let combos := generate_combinations
  let total := combos.length
  runnerAux urlL urlR fetch stopAt saveOk nowS nowU total combos 1
    { st0 with running := true, queue_remaining := some total } file0

/-- The process-wide mutable control state: the snapshot dict, the
`stop_event` flag, and the number of `runner_loop` thread instances that
have been spawned by `threading.Thread(...).start()` (app.py lines
148-149) and are executing concurrently. -/
structure SysState where
  snapshot : WorkerState
  stop_event : Bool
  activeLoops : Nat
deriving DecidableEq

/-- app.py lines 139-150, the `/start` handler: it reads
`state["running"]` (line 144, without holding `state_lock`); if true it
answers "Already running" (200) and changes nothing; otherwise it clears
`stop_event` and spawns one more `runner_loop` thread, answering
"Started" (202).  Note that `start` itself never writes
`state["running"]` — only the spawned thread does, later, at line 107. -/
def start (s : SysState) : SysState × String × Nat :=
  if s.snapshot.running then (s, "Already running", 200)
  else ({ s with stop_event := false, activeLoops := s.activeLoops + 1 },
        "Started", 202)

/-- app.py lines 104-108, the first statements a spawned `runner_loop`
thread executes: under `state_lock` it sets `running := true` and
`queue_remaining := total`.  Until a spawned thread gets scheduled and
runs this, `state["running"]` is still false. -/
def loopBegin (s : SysState) : SysState :=
  { s with snapshot :=
      { s.snapshot with running := true,
                        queue_remaining := some generate_combinations.length } }

/-- app.py lines 152-159, the `/stop` handler: if `state["running"]` is
false it answers "Not running" (200) and changes nothing; otherwise it
sets `stop_event` and answers "Stopping" (202). -/
def stop (s : SysState) : SysState × String × Nat :=
  if !s.snapshot.running then (s, "Not running", 200)
  else ({ s with stop_event := true }, "Stopping", 202)

/-- The control state at process startup (app.py lines 25-34). -/
def initSys : SysState :=
  { snapshot := initialState, stop_event := false, activeLoops := 0 }

/-- Fixture observation for concrete witnesses. -/
def obsA : Observation :=
  { plate := "AA", status := "issued", note := "", checked_at := "t0" }

/-- Second fixture observation for concrete witnesses. -/
def obsB : Observation :=
  { plate := "AB", status := "unknown", note := "n", checked_at := "t1" }

/-- Fixture fetch capability: raises (message "boom") on the URL built for
plate "AA" from prefix "L" and suffix "R", succeeds elsewhere. -/
def exFetch : String → Except String String :=
  fun u => if u = "LAAR" then Except.error "boom" else Except.ok "ok"

/-! ### Lemmas about the lexicographic order used for the generator -/

theorem lexLt_trans : ∀ as bs cs : List Char,
    lexLt as bs = true → lexLt bs cs = true → lexLt as cs = true
  | [], _ :: _, _ :: _, _, _ => rfl
  | a :: as, b :: bs, c :: cs, h1, h2 => by
    simp only [lexLt, Bool.or_eq_true, Bool.and_eq_true, beq_iff_eq,
      decide_eq_true_eq] at h1 h2 ⊢
    rcases h1 with h1 | ⟨rfl, h1⟩
    · rcases h2 with h2 | ⟨rfl, h2⟩
      · exact Or.inl (lt_trans h1 h2)
      · exact Or.inl h1
    · rcases h2 with h2 | ⟨rfl, h2⟩
      · exact Or.inl h2
      · exact Or.inr ⟨rfl, lexLt_trans as bs cs h1 h2⟩

theorem lexLt_irrefl : ∀ as : List Char, lexLt as as = false
  | [] => rfl
  | _ :: as => by
    simp only [lexLt, Bool.or_eq_false_iff, Bool.and_eq_false_iff]
    exact ⟨by simp, Or.inr (lexLt_irrefl as)⟩

theorem lexSorted_pairwise : ∀ l : List String, lexSorted l = true →
    l.Pairwise (fun a b => codeLt a b = true)
  | [], _ => List.Pairwise.nil
  | [_], _ => by simp
  | a :: b :: rest, h => by
    have h' : codeLt a b = true ∧ lexSorted (b :: rest) = true := by
      simpa [lexSorted, Bool.and_eq_true] using h
    have hp := lexSorted_pairwise (b :: rest) h'.2
    refine List.Pairwise.cons ?_ hp
    intro x hx
    rcases List.mem_cons.mp hx with rfl | hx
    · exact h'.1
    · exact lexLt_trans _ _ _ h'.1 (List.rel_of_pairwise_cons hp hx)

theorem codeLt_ne {a b : String} (h : codeLt a b = true) : a ≠ b := by
  rintro rfl
  rw [codeLt, lexLt_irrefl] at h
  exact Bool.false_ne_true h

/-- C4: `generate_combinations` returns exactly 676 codes, all distinct,
pairwise strictly increasing in the lexicographic order on (first letter,
second letter), beginning at "AA" and ending at "ZZ", each a two-character
string over the 26 uppercase letters.  The embedded function is a closed,
effect-free term, so every call returns this identical sequence. -/
theorem C4_generator :
    generate_combinations.length = 676 ∧
    generate_combinations.Nodup ∧
    generate_combinations.Pairwise (fun a b => codeLt a b = true) ∧
    generate_combinations.head? = some "AA" ∧
    generate_combinations.getLast? = some "ZZ" ∧
    ∀ s ∈ generate_combinations,
      s.length = 2 ∧ s.toList.all (fun c => letters.contains c) := by
  have hp := lexSorted_pairwise generate_combinations (by decide)
  exact ⟨by decide, hp.imp codeLt_ne, hp, by decide, by decide, by decide⟩

/-! ### The classifier -/

/-- C3: `parse_status` applies its five rules in order, first match wins:
the error sentinel, then the rate-limit phrase, then "Plate is issued",
then a lowercased "available", and otherwise `unknown` with the first 200
characters of the input. -/
theorem C3_first_match_policy (s : String) :
    (strStartsWith s "__ERROR__" = true → parse_status s = ("error", s)) ∧
    (strStartsWith s "__ERROR__" = false →
      containsSubstr s "You have reached the maximum plate preview attempts" = true →
        parse_status s = ("blocked", "rate-limited")) ∧
    (strStartsWith s "__ERROR__" = false →
      containsSubstr s "You have reached the maximum plate preview attempts" = false →
      containsSubstr s "Plate is issued" = true →
        parse_status s = ("issued", "")) ∧
    (strStartsWith s "__ERROR__" = false →
      containsSubstr s "You have reached the maximum plate preview attempts" = false →
      containsSubstr s "Plate is issued" = false →
      containsSubstr (strLower s) "available" = true →
        parse_status s = ("available", "")) ∧
    (strStartsWith s "__ERROR__" = false →
      containsSubstr s "You have reached the maximum plate preview attempts" = false →
      containsSubstr s "Plate is issued" = false →
      containsSubstr (strLower s) "available" = false →
        parse_status s = ("unknown", strTake s 200)) := by
  refine ⟨?_, ?_, ?_, ?_, ?_⟩ <;> intros <;> simp_all [parse_status]

/-- Concrete instances of every rule of C3, including an input that
matches both the rate-limit rule and the issued rule and classifies by
the earlier rule. -/
theorem C3_first_match_policy_witness :
    parse_status "__ERROR__ timeout" = ("error", "__ERROR__ timeout") ∧
    parse_status "You have reached the maximum plate preview attempts Plate is issued"
      = ("blocked", "rate-limited") ∧
    parse_status "Plate is issued" = ("issued", "") ∧
    parse_status "The plate is Available" = ("available", "") ∧
    parse_status "hello" = ("unknown", strTake "hello" 200) :=
  ⟨(C3_first_match_policy _).1 (by decide),
   (C3_first_match_policy _).2.1 (by decide) (by decide),
   (C3_first_match_policy _).2.2.1 (by decide) (by decide) (by decide),
   (C3_first_match_policy _).2.2.2.1 (by decide) (by decide) (by decide) (by decide),
   (C3_first_match_policy _).2.2.2.2 (by decide) (by decide) (by decide) (by decide)⟩

/-- C8: `parse_status` is a total function (the embedding is a Lean
function, so it can raise nothing), its status component always lies in
the closed five-element vocabulary, and the empty input classifies as
`unknown` with an empty note. -/
theorem C8_parse_status_total (s : String) :
    ((parse_status s).1 = "issued" ∨ (parse_status s).1 = "available" ∨
     (parse_status s).1 = "blocked" ∨ (parse_status s).1 = "error" ∨
     (parse_status s).1 = "unknown") ∧
    parse_status "" = ("unknown", "") := by
  refine ⟨?_, by decide⟩
  unfold parse_status
  split_ifs <;> simp

/-! ### The control handlers -/

/-- C9: a `stop` request while the snapshot is not running answers
"Not running" with HTTP 200 and leaves the whole system state — in
particular every field of the Progress Snapshot — unchanged. -/
theorem C9_stop_idle_is_noop (s : SysState) (h : s.snapshot.running = false) :
    stop s = (s, "Not running", 200) := by
  simp [stop, h]

/-- C9 instantiated at the startup state. -/
theorem C9_stop_idle_is_noop_witness :
    initSys.snapshot.running = false ∧ stop initSys = (initSys, "Not running", 200) :=
  ⟨rfl, C9_stop_idle_is_noop initSys rfl⟩

/-- C10: a falsy limit of 0 returns all records, exactly like no limit,
and a missing data file yields the empty list for any limit. -/
theorem C10_falsy_limit_and_missing_file (lines : List StoredLine) (limit : Option Int) :
    load_results (some lines) (some 0) = load_results (some lines) none ∧
    load_results none limit = [] := by
  exact ⟨by simp [load_results], rfl⟩

/-! ### The result store -/

theorem foldl_save_eq : ∀ (obs : List Observation) (init : List StoredLine),
    obs.foldl save_result init = init ++ obs.map StoredLine.record
  | [], init => by simp
  | o :: rest, init => by
    simp only [List.foldl_cons, List.map_cons]
    rw [foldl_save_eq rest (save_result init o)]
    simp [save_result]

theorem filterMap_decode_map_record (obs : List Observation) :
    (obs.map StoredLine.record).filterMap decodeLine = obs := by
  induction obs with
  | nil => rfl
  | cons o rest ih => simp [List.filterMap_cons, decodeLine, ih]

/-- C5 (counterexample): supplying the limit 0 for a store holding one
appended observation does not return the first 0 elements of the reversed
sequence (the empty list) — the code treats the falsy 0 as "no limit" and
returns everything. -/
theorem C5_zero_limit_counterexample :
    load_results (some (save_result [] obsA)) (some 0) ≠
      (load_results (some (save_result [] obsA)) none).take (Int.toNat 0) := by
  decide

/-- C5 (amended): scanning without a limit returns every appended
observation exactly once, in exact reverse append order; supplying a
positive limit returns the first `limit` elements of that reversed
sequence.  (A limit of 0 is falsy in the source and behaves as "no
limit"; see the counterexample.) -/
theorem C5_scan_reverse_and_positive_limit (obs : List Observation) (l : Int)
    (hl : 0 < l) :
    load_results (some (obs.foldl save_result [])) none = obs.reverse ∧
    load_results (some (obs.foldl save_result [])) (some l)
      = obs.reverse.take l.toNat := by
  have hfile : obs.foldl save_result [] = obs.map StoredLine.record := by
    simpa using foldl_save_eq obs []
  have hrows := filterMap_decode_map_record obs
  constructor
  · simp [load_results, hfile, hrows]
  · simp only [load_results, hfile, hrows]
    rw [if_neg (by omega : ¬ l = 0), pyTake, if_pos (le_of_lt hl)]

/-- C5 witness: two appended observations, scanned without and with the
limit 1. -/
theorem C5_scan_reverse_and_positive_limit_witness :
    (0 : Int) < 1 ∧
    (load_results (some ([obsA, obsB].foldl save_result [])) none = [obsA, obsB].reverse ∧
     load_results (some ([obsA, obsB].foldl save_result [])) (some 1)
        = [obsA, obsB].reverse.take ((1 : Int)).toNat) :=
  ⟨by decide, C5_scan_reverse_and_positive_limit [obsA, obsB] 1 (by decide)⟩

/-- C6: a malformed line anywhere in the store is skipped individually —
removing it does not change the result of any scan — and every
well-formed record of the store is returned by the unlimited scan exactly
as often as it occurs; no malformed line aborts the scan (the embedded
reader is a total function). -/
theorem C6_malformed_lines_skipped (pre post : List StoredLine) (s : String)
    (limit : Option Int) (file : List StoredLine) (o : Observation) :
    load_results (some (pre ++ StoredLine.malformed s :: post)) limit
      = load_results (some (pre ++ post)) limit ∧
    (load_results (some file) none).count o = file.count (StoredLine.record o) := by
  constructor
  · have h : (pre ++ StoredLine.malformed s :: post).filterMap decodeLine
        = (pre ++ post).filterMap decodeLine := by
      simp [List.filterMap_append, List.filterMap_cons, decodeLine]
    simp [load_results, h]
  · simp only [load_results, List.count_reverse]
    induction file with
    | nil => rfl
    | cons line rest ih =>
      cases line with
      | record o' => simp [List.filterMap_cons, decodeLine, List.count_cons, ih]
      | malformed raw => simp [List.filterMap_cons, decodeLine, List.count_cons, ih]
      | blank => simp [List.filterMap_cons, decodeLine, List.count_cons, ih]

/-! ### The error sentinel and the worker loop -/

theorem listPrefixOf_append : ∀ (p q r : List Char),
    listPrefixOf p q = true → listPrefixOf p (q ++ r) = true
  | [], _, _, _ => rfl
  | _ :: _, [], _, h => by simp [listPrefixOf] at h
  | a :: as, b :: bs, r, h => by
    simp only [listPrefixOf, Bool.and_eq_true] at h
    simp only [List.cons_append, listPrefixOf, Bool.and_eq_true]
    exact ⟨h.1, listPrefixOf_append as bs r h.2⟩

theorem listPrefixOf_refl : ∀ l : List Char, listPrefixOf l l = true
  | [] => rfl
  | _ :: as => by simp [listPrefixOf, listPrefixOf_refl as]

theorem hasSubList_append_right : ∀ pat pre : List Char,
    hasSubList pat (pre ++ pat) = true
  | pat, [] => by
    show hasSubList pat pat = true
    cases pat with
    | nil => rfl
    | cons c cs => simp [hasSubList, listPrefixOf_refl]
  | pat, p :: pre => by
    simp only [List.cons_append, hasSubList, Bool.or_eq_true]
    exact Or.inr (hasSubList_append_right pat pre)

theorem toList_append (s t : String) : (s ++ t).toList = s.toList ++ t.toList := by
  simp [String.toList]

/-- Any text produced by the `except` branch of `check_plate` classifies
as an error, with the whole sentinel text as the note. -/
theorem parse_status_error_sentinel (e : String) :
    parse_status ("__ERROR__ " ++ e) = ("error", "__ERROR__ " ++ e) := by
  have h : strStartsWith ("__ERROR__ " ++ e) "__ERROR__" = true := by
    rw [strStartsWith, toList_append]
    exact listPrefixOf_append _ _ _ (by decide)
  simp [parse_status, h]

theorem containsSubstr_error_note (e : String) :
    containsSubstr ("__ERROR__ " ++ e) e = true := by
  rw [containsSubstr, toList_append]
  exact hasSubList_append_right _ _

/-- One normal iteration of the loop: stop flag unset, save succeeding. -/
theorem runnerAux_cons_step (urlL urlR : String) (fetch : String → Except String String)
    (stopAt saveOk : Nat → Bool) (nowS nowU : Nat → String) (total : Nat)
    (plate : String) (rest : List String) (idx : Nat) (st : WorkerState)
    (file : List StoredLine) (hstop : stopAt idx = false) (hsave : saveOk idx = true) :
    runnerAux urlL urlR fetch stopAt saveOk nowS nowU total (plate :: rest) idx st file
      = runnerAux urlL urlR fetch stopAt saveOk nowS nowU total rest (idx + 1)
          { st with last_plate := some plate,
                    last_status := some (parse_status (check_plate (fetch (urlL ++ plate ++ urlR)))).1,
                    last_checked_at := some (nowU idx),
                    queue_remaining := some (total - idx) }
          (save_result file
            { plate := plate,
              status := (parse_status (check_plate (fetch (urlL ++ plate ++ urlR)))).1,
              note := (parse_status (check_plate (fetch (urlL ++ plate ++ urlR)))).2,
              checked_at := nowS idx }) := by
  simp [runnerAux, hstop, hsave]

/-- C7: when the fetch for the current code fails with message `e`, the
loop step appends exactly one observation with status "error" whose note
(the full sentinel text) contains the failure description, and processing
continues with the remaining codes — no exception leaves the probe step
(the embedded step is a total function). -/
theorem C7_fetch_error_absorbed (urlL urlR : String) (fetch : String → Except String String)
    (stopAt saveOk : Nat → Bool) (nowS nowU : Nat → String) (total : Nat)
    (plate : String) (rest : List String) (idx : Nat) (st : WorkerState)
    (file : List StoredLine) (e : String)
    (hf : fetch (urlL ++ plate ++ urlR) = Except.error e)
    (hstop : stopAt idx = false) (hsave : saveOk idx = true) :
    runnerAux urlL urlR fetch stopAt saveOk nowS nowU total (plate :: rest) idx st file
      = runnerAux urlL urlR fetch stopAt saveOk nowS nowU total rest (idx + 1)
          { st with last_plate := some plate, last_status := some "error",
                    last_checked_at := some (nowU idx),
                    queue_remaining := some (total - idx) }
          (file ++ [StoredLine.record
            { plate := plate, status := "error", note := "__ERROR__ " ++ e,
              checked_at := nowS idx }])
      ∧ containsSubstr ("__ERROR__ " ++ e) e = true := by
  refine ⟨?_, containsSubstr_error_note e⟩
  rw [runnerAux_cons_step urlL urlR fetch stopAt saveOk nowS nowU total plate rest idx st
      file hstop hsave, hf]
  simp [check_plate, parse_status_error_sentinel, save_result]

/-- C7 witness: a concrete failing fetch on plate "AA" out of two codes. -/
theorem C7_fetch_error_absorbed_witness :
    (runnerAux "L" "R" exFetch (fun _ => false) (fun _ => true) (fun _ => "t") (fun _ => "u")
        676 ("AA" :: ["AB"]) 1 initialState []
      = runnerAux "L" "R" exFetch (fun _ => false) (fun _ => true) (fun _ => "t") (fun _ => "u")
          676 ["AB"] (1 + 1)
          { initialState with last_plate := some "AA", last_status := some "error",
                              last_checked_at := some "u",
                              queue_remaining := some (676 - 1) }
          ([] ++ [StoredLine.record
            { plate := "AA", status := "error", note := "__ERROR__ " ++ "boom",
              checked_at := "t" }]))
      ∧ containsSubstr ("__ERROR__ " ++ "boom") "boom" = true :=
  C7_fetch_error_absorbed "L" "R" exFetch (fun _ => false) (fun _ => true) (fun _ => "t")
    (fun _ => "u") 676 "AA" ["AB"] 1 initialState [] "boom" rfl rfl rfl

/-- Loop invariant: if the stop flag is false at iterations
`idx, ..., idx + n - 1` and true at iteration `idx + n`, and every save
succeeds, the loop processes exactly the first `n` codes and stops: the
final snapshot shows the `n`-th processed plate, `total - (idx + n - 1)`
remaining, `running` reset to false, and a normal thread exit. -/
theorem runnerAux_stopped_progress (urlL urlR : String)
    (fetch : String → Except String String) (stopAt : Nat → Bool)
    (nowS nowU : Nat → String) (total : Nat) :
    ∀ (n : Nat) (codes : List String) (idx : Nat) (st : WorkerState)
      (file : List StoredLine), 1 ≤ n → n ≤ codes.length →
      (∀ i, idx ≤ i → i < idx + n → stopAt i = false) →
      stopAt (idx + n) = true →
      (runnerAux urlL urlR fetch stopAt (fun _ => true) nowS nowU total codes idx st file).st.queue_remaining
          = some (total - (idx + n - 1)) ∧
      (runnerAux urlL urlR fetch stopAt (fun _ => true) nowS nowU total codes idx st file).st.last_plate
          = codes[n - 1]? ∧
      (runnerAux urlL urlR fetch stopAt (fun _ => true) nowS nowU total codes idx st file).st.running = false ∧
      (runnerAux urlL urlR fetch stopAt (fun _ => true) nowS nowU total codes idx st file).completed = true := by
  intro n
  induction n with
  | zero => intro codes idx st file h1; omega
  | succ k ih =>
    intro codes idx st file h1 h2 h3 h4
    match codes with
    | [] => simp at h2
    | plate :: rest =>
      have hstop : stopAt idx = false := h3 idx le_rfl (by omega)
      rw [runnerAux_cons_step urlL urlR fetch stopAt _ nowS nowU total plate rest idx st
          file hstop rfl]
      rcases Nat.eq_zero_or_pos k with rfl | hk
      · cases rest with
        | nil => refine ⟨?_, ?_, ?_, ?_⟩ <;> simp [runnerAux]
        | cons q qs =>
          have hstop2 : stopAt (idx + 1) = true := h4
          refine ⟨?_, ?_, ?_, ?_⟩ <;> simp [runnerAux, hstop2]
      · obtain ⟨m, rfl⟩ : ∃ m, k = m + 1 := ⟨k - 1, by omega⟩
        have h' := ih rest (idx + 1)
          { st with last_plate := some plate,
                    last_status := some (parse_status (check_plate (fetch (urlL ++ plate ++ urlR)))).1,
                    last_checked_at := some (nowU idx),
                    queue_remaining := some (total - idx) }
          (save_result file
            { plate := plate,
              status := (parse_status (check_plate (fetch (urlL ++ plate ++ urlR)))).1,
              note := (parse_status (check_plate (fetch (urlL ++ plate ++ urlR)))).2,
              checked_at := nowS idx })
          (by omega) (by simpa using h2)
          (fun i a b => h3 i (by omega) (by omega))
          (by have e : idx + 1 + (m + 1) = idx + (m + 1 + 1) := by omega
              rw [e]; exact h4)
        have e1 : idx + 1 + (m + 1) - 1 = idx + (m + 1 + 1) - 1 := by omega
        rw [e1] at h'
        simpa using h'

/-- C2: for every `k` with `1 ≤ k ≤ 676` and every fetch behaviour, a run
that is stopped right after its `k`-th iteration shows
`queue_remaining = 676 - k` and `last_plate` equal to the `k`-th generated
code, with `running` reset on this normal exit; but a run whose first
`save_result` fails dies with `running` left `true` — the reset at the end
of the loop is skipped on a persistence failure, contradicting the
"reset whenever the loop ends" clause. -/
theorem C2_progress_and_running_reset (urlL urlR : String)
    (fetch : String → Except String String) (nowS nowU : Nat → String)
    (k : Nat) (h1 : 1 ≤ k) (h2 : k ≤ 676) :
    ((runner_loop urlL urlR fetch (fun i => decide (k < i)) (fun _ => true) nowS nowU initialState []).st.queue_remaining
        = some (676 - k) ∧
     (runner_loop urlL urlR fetch (fun i => decide (k < i)) (fun _ => true) nowS nowU initialState []).st.last_plate
        = generate_combinations[k - 1]? ∧
     (runner_loop urlL urlR fetch (fun i => decide (k < i)) (fun _ => true) nowS nowU initialState []).st.running = false ∧
     (runner_loop urlL urlR fetch (fun i => decide (k < i)) (fun _ => true) nowS nowU initialState []).completed = true) ∧
    ((runner_loop "L" "R" (fun _ => Except.ok "x") (fun _ => false) (fun _ => false)
        (fun _ => "t") (fun _ => "t") initialState []).completed = false ∧
     (runner_loop "L" "R" (fun _ => Except.ok "x") (fun _ => false) (fun _ => false)
        (fun _ => "t") (fun _ => "t") initialState []).st.running = true) := by
  refine ⟨?_, by decide⟩
  have hlen : generate_combinations.length = 676 := by decide
  have h := runnerAux_stopped_progress urlL urlR fetch (fun i => decide (k < i)) nowS nowU
    generate_combinations.length k generate_combinations 1
    { initialState with running := true, queue_remaining := some generate_combinations.length } []
    h1 (by rw [hlen]; exact h2)
    (fun i hi1 hi2 => by simp only [decide_eq_false_iff_not]; omega)
    (by simp only [decide_eq_true_eq]; omega)
  have e1 : 1 + k - 1 = k := by omega
  rw [e1, hlen] at h
  simpa [runner_loop, hlen] using h

/-- C2 witness: stop after the third code; `AC` is the third code. -/
theorem C2_progress_and_running_reset_witness :
    ((runner_loop "L" "R" (fun _ => Except.ok "x") (fun i => decide (3 < i)) (fun _ => true)
        (fun _ => "t") (fun _ => "t") initialState []).st.queue_remaining = some (676 - 3) ∧
     (runner_loop "L" "R" (fun _ => Except.ok "x") (fun i => decide (3 < i)) (fun _ => true)
        (fun _ => "t") (fun _ => "t") initialState []).st.last_plate = generate_combinations[3 - 1]? ∧
     (runner_loop "L" "R" (fun _ => Except.ok "x") (fun i => decide (3 < i)) (fun _ => true)
        (fun _ => "t") (fun _ => "t") initialState []).st.running = false ∧
     (runner_loop "L" "R" (fun _ => Except.ok "x") (fun i => decide (3 < i)) (fun _ => true)
        (fun _ => "t") (fun _ => "t") initialState []).completed = true) ∧
    ((runner_loop "L" "R" (fun _ => Except.ok "x") (fun _ => false) (fun _ => false)
        (fun _ => "t") (fun _ => "t") initialState []).completed = false ∧
     (runner_loop "L" "R" (fun _ => Except.ok "x") (fun _ => false) (fun _ => false)
        (fun _ => "t") (fun _ => "t") initialState []).st.running = true) :=
  C2_progress_and_running_reset "L" "R" (fun _ => Except.ok "x") (fun _ => "t") (fun _ => "t")
    3 (by decide) (by decide)

/-- C1: a `start` request that observes `running = true` is a no-op
answering "Already running" (first two conjuncts, on a schedule where the
spawned thread ran `loopBegin` before the second request); but on the
schedule the claim describes — the second `start` handled after the first
returned and before the spawned thread marked itself running — the guard
at line 144 still reads `false` and a second concurrent `runner_loop`
thread is spawned, with the second request answering "Started". -/
theorem C1_single_flight_race :
    (start (loopBegin (start initSys).1)).1 = loopBegin (start initSys).1 ∧
    (start (loopBegin (start initSys).1)).2.1 = "Already running" ∧
    (start (start initSys).1).2.1 = "Started" ∧
    (start (start initSys).1).1.activeLoops = 2 := by
  decide

end Plates
